import Mathlib

/-!
Shallow embedding of `src/cogscale/foundation.py` (CognitiveScale
foundation-sdk-python) and proofs about the claims of its specification.

Conventions of the embedding:
* Python dynamic values that can appear in the JSON payload/config files and
  in connection descriptors are modelled by the inductive type `PyVal`
  (None, booleans, strings, integers — the scalar JSON shapes relevant here).
* Python dictionary lookup `d.get(k, default)` on the per-key views is
  modelled with `Option` (`some v` = key present with value `v`) and
  `Option.getD`.
* Fallible Python code (code that can raise) returns `Except String _`,
  the error string standing for the exception message.
* Network effects are made explicit: the HTTP world is a function from the
  request the code builds to a response, and each operation returns the
  list of requests it issued (and, for the notifier, the list of error-log
  lines it emitted) alongside its result.
-/

namespace Cogscale

/-- A Python scalar value as it may occur in the JSON configuration files and
connection descriptors handled by `foundation.py`. -/
inductive PyVal where
  | none : PyVal
  | bool : Bool → PyVal
  | str : String → PyVal
  | int : Int → PyVal
  deriving DecidableEq, Repr

/-- Python truthiness (`bool(v)`) restricted to the values of `PyVal`:
`None` and empty strings and `0` are falsy. -/
def pyTruthy : PyVal → Bool
  | .none => false
  | .bool b => b
  | .str s => s ≠ ""
  | .int n => n ≠ 0

/-- Python `str.lower()`: lowercase the string character by character
(the inputs handled here are ASCII). -/
def pyLower (t : String) : String := String.mk (t.data.map Char.toLower)

/-- Embedding of `parse_bool` (foundation.py lines 20-25):
`None → False`; a `bool` passes through; a string is lowercased and compared
with `"true"`; any other value has no `.lower()` attribute, so the call
raises (`AttributeError`), modelled as `Except.error`. -/
def parse_bool : PyVal → Except String Bool
  | .none => .ok false
  | .bool b => .ok b
  | .str s => .ok (pyLower s == "true")
  | .int _ => .error "AttributeError: int object has no attribute lower"

/-- Lookup in a Python dict modelled as an association list:
`d.get(k, default)`. -/
def dictGet (d : List (String × PyVal)) (k : String) (default : PyVal) : PyVal :=
  match d.find? (fun kv => kv.1 == k) with
  | some kv => kv.2
  | Option.none => default

/-- Whether the database client is opened plain or with TLS (certificate
verification disabled), the two branches of `_create_client` lines 65-69. -/
inductive ClientMode where
  | plain : ClientMode
  | tlsNoVerify : ClientMode
  deriving DecidableEq, Repr

/-- Embedding of the TLS-selection lines of `Repository._create_client`
(foundation.py lines 65-69), read in isolation:
`opts = conn["server"].get("options", {})`; if
`parse_bool(opts.get("ssl", False))` then a TLS client with certificate
verification disabled is opened, else a plain client.  `options = Option.none`
models a descriptor whose server object has no `options` key; a `parse_bool`
exception propagates.  Note that in the shipped module these lines are
unreachable: line 50 of the same function is a syntax error (`&&` is not a
Python operator), so the program itself can never open any client.  This
definition is used only to show that the `parse_bool` call prescribed by
these lines fails on a non-scalar `ssl` value, a failure the real program
exhibits a fortiori. -/
def createClientMode (options : Option (List (String × PyVal))) :
    Except String ClientMode :=
  let opts := options.getD []
  match parse_bool (dictGet opts "ssl" (.bool false)) with
  | .ok true => .ok .tlsNoVerify
  | .ok false => .ok .plain
  | .error e => .error e

/-- The resolved configuration produced by `Foundation.__init__`. -/
structure Foundation where
  api_root : PyVal
  api_key : PyVal
  deriving DecidableEq, Repr

/-- Embedding of the per-field source merge in `Foundation.__init__`
(foundation.py lines 120-122 and 128-130):
`kwargs.get(k, payload.get(k, config.get(k, os.getenv(K))))`.
Each of `kw`, `payload`, `config` is `some v` when the key is present in that
mapping; `env` is `some s` when the environment variable is set (to `s`).
An unset environment variable yields Python `None`. -/
def resolveSetting (kw payload config : Option PyVal) (env : Option String) :
    PyVal :=
  kw.getD (payload.getD (config.getD (match env with
    | some s => .str s
    | Option.none => .none)))

/-- Error message raised when the API root is not configured
(foundation.py lines 124-126). -/
def rootErrMsg : String :=
  "Foundation API root not configured: see http://docs.foundation.insights.ai for details"

/-- Error message raised when the API key is not configured
(foundation.py lines 132-134). -/
def keyErrMsg : String :=
  "Foundation API key not configured: see http://docs.foundation.insights.ai for details"

/-- Embedding of `Foundation.__init__` (foundation.py lines 116-134).
The eight arguments are the values the four sources supply for
`foundation_api_root` and then for `foundation_api_key`.
The resolved `api_root` is checked for truthiness before `api_key` is even
resolved, mirroring the statement order; a raised
`ConfigurationException` is modelled as `Except.error` with its message. -/
def Foundation.init (kwRoot pRoot cRoot : Option PyVal) (eRoot : Option String)
    (kwKey pKey cKey : Option PyVal) (eKey : Option String) :
    Except String Foundation :=
  let api_root := resolveSetting kwRoot pRoot cRoot eRoot
  if pyTruthy api_root then
    let api_key := resolveSetting kwKey pKey cKey eKey
    if pyTruthy api_key then
      .ok ⟨api_root, api_key⟩
    else
      .error keyErrMsg
  else
    .error rootErrMsg

/-- The resolver the specification describes, written from the spec words
"selects the first non-empty value among: explicit override, payload field,
config field, environment variable (in that order)" — for comparison with
the code's `resolveSetting`.  Returns `Option.none` when no source supplies a
non-empty value. -/
def specFirstNonEmpty (kw payload config : Option PyVal) (env : Option String) :
    Option PyVal :=
  (([kw, payload, config, env.map PyVal.str]).filterMap id).find? pyTruthy

/-- First value present in any source, in priority order — the selection rule
the code actually implements for each setting. -/
def firstPresent (kw payload config : Option PyVal) (env : Option String) :
    Option PyVal :=
  ([kw, payload, config, env.map PyVal.str]).findSome? id

/-- An HTTP GET request as built by `Repository.get_connection`: a URL and a
header list. -/
structure GetRequest where
  url : String
  headers : List (String × String)
  deriving DecidableEq, Repr

/-- An HTTP response, as seen by the code: status code, the value
`r.json()` parses to (kept abstract in `β`), and the raw text `r.text`. -/
structure HttpResponse (β : Type) where
  status : Nat
  jsonBody : β
  text : String

/-- Embedding of `Repository.__init__` state (foundation.py lines 28-31). -/
structure Repository where
  api_root : String
  api_key : String
  deriving DecidableEq, Repr

/-- `requests.Response.raise_for_status` raises `HTTPError` exactly for
status codes in `[400, 600)` (client and server errors); informational,
redirect and success codes do not raise. -/
def raiseForStatusErrors (status : Nat) : Bool :=
  400 ≤ status && status < 600

/-- Embedding of `Repository.get_connection` (foundation.py lines 33-37).
`http` is the HTTP world: the response the world returns for a request.
The result pairs the list of requests issued with the outcome:
`r.raise_for_status()` propagating an `HTTPError` is `Except.error` carrying
the status, and otherwise `r.json()` is returned. -/
def Repository.get_connection (self : Repository) (repository_id : String)
    (http : GetRequest → HttpResponse β) :
    List GetRequest × Except Nat β :=
  let headers := [("X-CogScale-Key", self.api_key)]
  let req : GetRequest :=
    ⟨self.api_root ++ "/v1/repository/" ++ repository_id ++ "/connection", headers⟩
  let r := http req
  if raiseForStatusErrors r.status then
    ([req], .error r.status)
  else
    ([req], .ok r.jsonBody)

/-- The single-message batch envelope `{"messages": [{"body": json.dumps(msg)}]}`
built by `Observers._post_message` (foundation.py lines 91-95); the inner
objects carry only a `body` field, which is the JSON-serialized payload. -/
structure QueueEnvelope where
  messages : List String
  deriving DecidableEq, Repr

/-- An HTTP POST request as built by `Observers._post_message`: URL, JSON
body (the envelope) and headers. -/
structure PostRequest where
  url : String
  jsonBody : QueueEnvelope
  headers : List (String × String)
  deriving DecidableEq, Repr

/-- Embedding of `Observers.__init__` state (foundation.py lines 72-76);
`observers or {}` turns an absent registry into the empty mapping. -/
structure Observers where
  api_root : String
  api_key : String
  observers : List (String × List String)
  deriving DecidableEq, Repr

/-- `Observers(api_root, api_key, observers)` with `observers or {}`
(foundation.py line 76). -/
def Observers.init (api_root api_key : String)
    (observers : Option (List (String × List String))) : Observers :=
  ⟨api_root, api_key, observers.getD []⟩

/-- The error-log line `'Observer failed to post message to queue %s; error
was "%s"' % (queue, r.text)` (foundation.py line 101). -/
def errorLogMsg (queue text : String) : String :=
  "Observer failed to post message to queue " ++ queue ++ "; error was \"" ++ text ++ "\""

/-- Lookup in the observer registry (`self.observers.get(kind)`). -/
def registryGet (d : List (String × List String)) (k : String) :
    Option (List String) :=
  match d.find? (fun kv => kv.1 == k) with
  | some kv => some kv.2
  | Option.none => Option.none

/-- Embedding of `Observers._post_message` (foundation.py lines 90-101).
`dumps` is the JSON serializer applied to the payload (`json.dumps`), kept
abstract.  Returns the POST request issued and, when the response status is
not 201, the error-log line emitted (`Option.none` means nothing logged).
No exception escapes: the function is total. -/
def Observers.post_message (self : Observers) (dumps : α → String)
    (queue : String) (msg : α) (http : PostRequest → HttpResponse β) :
    PostRequest × Option String :=
  let queue_msg : QueueEnvelope := ⟨[dumps msg]⟩
  let headers := [("X-CogScale-Key", self.api_key)]
  let req : PostRequest :=
    ⟨self.api_root ++ "/v1/queues/" ++ queue ++ "/messages", queue_msg, headers⟩
  let r := http req
  (req, if r.status ≠ 201 then some (errorLogMsg queue r.text) else Option.none)

/-- Embedding of `Observers.on_error` (foundation.py lines 78-82):
look up the `error` queue list; if it is absent or empty (`if error_observers:`
is falsy for both) do nothing, else post the payload to each queue in order.
Returns (requests issued, error-log lines emitted). -/
def Observers.on_error (self : Observers) (dumps : α → String) (error : α)
    (http : PostRequest → HttpResponse β) :
    List PostRequest × List String :=
  match registryGet self.observers "error" with
  | some error_observers =>
    if error_observers.isEmpty then ([], [])
    else
      let results := error_observers.map
        (fun queue => self.post_message dumps queue error http)
      (results.map Prod.fst, results.filterMap Prod.snd)
  | Option.none => ([], [])

/-- Embedding of `Observers.on_completion` (foundation.py lines 84-88),
identical to `on_error` with the `completion` registry entry. -/
def Observers.on_completion (self : Observers) (dumps : α → String) (msg : α)
    (http : PostRequest → HttpResponse β) :
    List PostRequest × List String :=
  match registryGet self.observers "completion" with
  | some completion_observers =>
    if completion_observers.isEmpty then ([], [])
    else
      let results := completion_observers.map
        (fun queue => self.post_message dumps queue msg http)
      (results.map Prod.fst, results.filterMap Prod.snd)
  | Option.none => ([], [])

/-- The POST request the spec says the notifier issues for queue `queue`:
URL `{api_root}/v1/queues/{queue}/messages`, the single-message batch
envelope around the serialized payload, and the API-key header. -/
def expectedPost (self : Observers) (dumps : α → String) (msg : α)
    (queue : String) : PostRequest :=
  ⟨self.api_root ++ "/v1/queues/" ++ queue ++ "/messages",
   ⟨[dumps msg]⟩, [("X-CogScale-Key", self.api_key)]⟩

/-- A concrete notifier used to instantiate the notifier theorems. -/
def obsEx : Observers :=
  ⟨"http://api.example", "secret", [("error", ["q1", "q2"]), ("completion", ["qc"])]⟩

/-- A concrete notifier with an empty registry. -/
def obsEmpty : Observers :=
  ⟨"http://api.example", "secret", []⟩

/-- A concrete payload serializer (`json.dumps` on the payload `()`). -/
def exDumps : Unit → String := fun _ => "42"

/-- A concrete HTTP world that always answers 201. -/
def exHttp : PostRequest → HttpResponse Unit := fun _ => ⟨201, (), ""⟩

/-- A concrete HTTP world that fails queue `q1` with a 500 and answers 201
elsewhere. -/
def exHttpMixed : PostRequest → HttpResponse Unit := fun r =>
  if r.url = "http://api.example/v1/queues/q1/messages" then ⟨500, (), "boom"⟩
  else ⟨201, (), ""⟩

/-- C5: `parse_bool` maps `None` to `False`, passes booleans through
unchanged, and on a string returns `True` exactly when the lowercased string
equals `"true"`; in particular `parse_bool(None) == False`,
`parse_bool(True) == True`, `parse_bool("True") == True`,
`parse_bool("false") == False` and `parse_bool("yes") == False`. -/
theorem parse_bool_rules :
    parse_bool PyVal.none = Except.ok false
    ∧ (∀ b : Bool, parse_bool (PyVal.bool b) = Except.ok b)
    ∧ (∀ t : String, parse_bool (PyVal.str t) = Except.ok (pyLower t == "true"))
    ∧ parse_bool (PyVal.bool true) = Except.ok true
    ∧ parse_bool (PyVal.str "True") = Except.ok true
    ∧ parse_bool (PyVal.str "false") = Except.ok false
    ∧ parse_bool (PyVal.str "yes") = Except.ok false := by
  refine ⟨rfl, fun b => rfl, fun t => rfl, rfl, ?_, ?_, ?_⟩ <;>
    simp only [parse_bool, Except.ok.injEq] <;> decide

/-- C10: `parse_bool` returns a boolean only on `None`, booleans and strings;
on any other value (such as the integers `1` or `0` a JSON number in the
descriptor would produce) it raises instead of returning, and therefore the
TLS selection of `_create_client` fails on a descriptor whose `ssl` option is
such a value. -/
theorem parse_bool_total_only_on_none_bool_str :
    (∀ v : PyVal, (∃ b, parse_bool v = Except.ok b) ↔
      (v = PyVal.none ∨ (∃ b, v = PyVal.bool b) ∨ (∃ t, v = PyVal.str t)))
    ∧ (∀ n : Int, parse_bool (PyVal.int n)
        = Except.error "AttributeError: int object has no attribute lower")
    ∧ createClientMode (some [("ssl", PyVal.int 1)])
        = Except.error "AttributeError: int object has no attribute lower"
    ∧ createClientMode (some [("ssl", PyVal.int 0)])
        = Except.error "AttributeError: int object has no attribute lower" := by
  refine ⟨?_, fun n => rfl, rfl, rfl⟩
  intro v
  cases v <;> simp [parse_bool]

/-- C1 counterexample: with an explicit override that is present but the
empty string and a payload file supplying a non-empty value, the claim says
the payload value is selected; the constructor instead resolves the empty
override (presence wins first, emptiness is never rechecked against later
sources) and raises the root configuration error. -/
theorem resolver_empty_override_shadows :
    specFirstNonEmpty (some (PyVal.str ""))
        (some (PyVal.str "http://payload.example")) Option.none Option.none
      = some (PyVal.str "http://payload.example")
    ∧ Foundation.init (some (PyVal.str ""))
        (some (PyVal.str "http://payload.example")) Option.none Option.none
        (some (PyVal.str "key")) Option.none Option.none Option.none
      = Except.error rootErrMsg := by
  constructor <;> rfl

/-- C1 as amended: for each of `api_root` and `api_key` the resolver selects
the first value PRESENT in a source, in the order override > payload >
config > environment, regardless of whether that value is empty; in
particular an override that is present but empty is selected (shadowing every
later source) and then makes construction fail with the root configuration
error instead of falling through to a later non-empty value. -/
theorem foundation_init_first_present :
    (∀ (kw payload config : Option PyVal) (env : Option String),
      resolveSetting kw payload config env
        = (firstPresent kw payload config env).getD PyVal.none)
    ∧ (∀ (pRoot cRoot : Option PyVal) (eRoot : Option String)
        (kwKey pKey cKey : Option PyVal) (eKey : Option String),
      Foundation.init (some (PyVal.str "")) pRoot cRoot eRoot
          kwKey pKey cKey eKey
        = Except.error rootErrMsg) := by
  constructor
  · intro kw payload config env
    cases kw <;> cases payload <;> cases config <;> cases env <;> rfl
  · intro pRoot cRoot eRoot kwKey pKey cKey eKey
    rfl

/-- C2: construction raises a `ConfigurationException` exactly when the
resolved `api_root` or the resolved `api_key` is still empty (falsy) after
the four-source merge, and on success the produced object carries exactly
the two resolved, non-empty values. -/
theorem foundation_init_raises_iff :
    ∀ (kwR pR cR : Option PyVal) (eR : Option String)
      (kwK pK cK : Option PyVal) (eK : Option String),
      ((∃ e, Foundation.init kwR pR cR eR kwK pK cK eK = Except.error e) ↔
        (pyTruthy (resolveSetting kwR pR cR eR) = false
          ∨ pyTruthy (resolveSetting kwK pK cK eK) = false))
      ∧ (∀ cfg, Foundation.init kwR pR cR eR kwK pK cK eK = Except.ok cfg →
          cfg = ⟨resolveSetting kwR pR cR eR, resolveSetting kwK pK cK eK⟩
          ∧ pyTruthy cfg.api_root = true ∧ pyTruthy cfg.api_key = true) := by
  intro kwR pR cR eR kwK pK cK eK
  refine ⟨?_, ?_⟩
  · rcases hR : pyTruthy (resolveSetting kwR pR cR eR) with _ | _ <;>
      rcases hK : pyTruthy (resolveSetting kwK pK cK eK) with _ | _ <;>
        simp [Foundation.init, hR, hK]
  · intro cfg h
    rcases hR : pyTruthy (resolveSetting kwR pR cR eR) with _ | _ <;>
      rcases hK : pyTruthy (resolveSetting kwK pK cK eK) with _ | _ <;>
        simp [Foundation.init, hR, hK] at h
    simp [← h, hR, hK]

/-- Witness for C2 at a concrete input: both settings get a non-empty
override, construction succeeds, and the object carries the two resolved
values. -/
theorem foundation_init_raises_iff_witness :
    Foundation.mk (PyVal.str "http://root.example") (PyVal.str "secret")
      = ⟨resolveSetting (some (PyVal.str "http://root.example"))
           Option.none Option.none Option.none,
         resolveSetting (some (PyVal.str "secret"))
           Option.none Option.none Option.none⟩
    ∧ pyTruthy (Foundation.mk (PyVal.str "http://root.example")
        (PyVal.str "secret")).api_root = true
    ∧ pyTruthy (Foundation.mk (PyVal.str "http://root.example")
        (PyVal.str "secret")).api_key = true :=
  (foundation_init_raises_iff (some (PyVal.str "http://root.example"))
      Option.none Option.none Option.none
      (some (PyVal.str "secret")) Option.none Option.none Option.none).2
    (Foundation.mk (PyVal.str "http://root.example") (PyVal.str "secret")) rfl

/-- C6 counterexample: a 304 response is not 2xx, yet `get_connection`
returns the parsed body instead of propagating an HTTP error —
`raise_for_status` only raises for statuses in `[400, 600)`. -/
theorem get_connection_304_returns_body :
    ((Repository.mk "http://api.example" "secret").get_connection "repo1"
        (fun _ => HttpResponse.mk 304 "descriptor" "")).2
      = Except.ok "descriptor"
    ∧ ¬ (200 ≤ 304 ∧ 304 < 300) := ⟨rfl, by decide⟩

/-- C6 as amended: `get_connection` sends exactly one GET to
`{api_root}/v1/repository/{repository_id}/connection` carrying the API key
in the `X-CogScale-Key` header; it propagates an HTTP error exactly when the
response status is a 4xx or 5xx (the range `raise_for_status` raises on),
and for every other status — including non-2xx statuses below 400 such as
304 — it returns the parsed JSON body.  No retry and no fallback value. -/
theorem get_connection_spec :
    ∀ (β : Type) (self : Repository) (repository_id : String)
      (http : GetRequest → HttpResponse β),
      (self.get_connection repository_id http).1
        = [⟨self.api_root ++ "/v1/repository/" ++ repository_id ++ "/connection",
            [("X-CogScale-Key", self.api_key)]⟩]
      ∧ (∀ e, (self.get_connection repository_id http).2 = Except.error e ↔
          (400 ≤ (http ⟨self.api_root ++ "/v1/repository/" ++ repository_id
                ++ "/connection", [("X-CogScale-Key", self.api_key)]⟩).status
            ∧ (http ⟨self.api_root ++ "/v1/repository/" ++ repository_id
                ++ "/connection", [("X-CogScale-Key", self.api_key)]⟩).status < 600
            ∧ e = (http ⟨self.api_root ++ "/v1/repository/" ++ repository_id
                ++ "/connection", [("X-CogScale-Key", self.api_key)]⟩).status))
      ∧ ((self.get_connection repository_id http).2
            = Except.error (http ⟨self.api_root ++ "/v1/repository/"
                ++ repository_id ++ "/connection",
                [("X-CogScale-Key", self.api_key)]⟩).status
          ∨ (self.get_connection repository_id http).2
            = Except.ok (http ⟨self.api_root ++ "/v1/repository/"
                ++ repository_id ++ "/connection",
                [("X-CogScale-Key", self.api_key)]⟩).jsonBody) := by
  intro β self repository_id http
  simp only [Repository.get_connection]
  rcases hb : raiseForStatusErrors
      (http ⟨self.api_root ++ "/v1/repository/" ++ repository_id
        ++ "/connection", [("X-CogScale-Key", self.api_key)]⟩).status with _ | _ <;>
    simp [hb]
  · intro e h1 h2 _
    simp only [raiseForStatusErrors, Bool.and_eq_false_iff,
      decide_eq_false_iff_not, not_le, not_lt] at hb
    rcases hb with hb | hb <;> omega
  · intro e
    simp only [raiseForStatusErrors, Bool.and_eq_true, decide_eq_true_eq] at hb
    constructor
    · intro he
      exact ⟨hb.1, hb.2, he.symm⟩
    · intro he
      exact he.2.2.symm

/-- C7: for every payload, `on_error` (resp. `on_completion`) issues exactly
one POST per queue name registered under `error` (resp. `completion`), in
registry order, to `{api_root}/v1/queues/{queueName}/messages` with the
`X-CogScale-Key` header, and the request body is the single-message batch
envelope wrapping the JSON-serialized payload. -/
theorem notifier_posts_per_queue :
    ∀ (α β : Type) (self : Observers) (dumps : α → String) (msg : α)
      (http : PostRequest → HttpResponse β) (qs : List String),
      (registryGet self.observers "error" = some qs →
        (self.on_error dumps msg http).1 = qs.map (expectedPost self dumps msg))
      ∧ (registryGet self.observers "completion" = some qs →
        (self.on_completion dumps msg http).1
          = qs.map (expectedPost self dumps msg)) := by
  intro α β self dumps msg http qs
  constructor <;> intro h <;>
    rcases qs with _ | ⟨q, rest⟩ <;>
      simp [Observers.on_error, Observers.on_completion, h,
        Observers.post_message, expectedPost, Function.comp]

/-- Witness for C7: a notifier with queues `q1`, `q2` under `error` and `qc`
under `completion` posts exactly the expected requests, in order. -/
theorem notifier_posts_per_queue_witness :
    (obsEx.on_error exDumps () exHttp).1
      = (["q1", "q2"]).map (expectedPost obsEx exDumps ())
    ∧ (obsEx.on_completion exDumps () exHttp).1
      = (["qc"]).map (expectedPost obsEx exDumps ()) :=
  ⟨(notifier_posts_per_queue Unit Unit obsEx exDumps () exHttp ["q1", "q2"]).1 rfl,
   (notifier_posts_per_queue Unit Unit obsEx exDumps () exHttp ["qc"]).2 rfl⟩

/-- C8: a queue POST whose response status differs from 201 produces exactly
one error-log line, which contains the queue name and the response body; a
201 response produces no log line; no exception is raised (`post_message`
and `on_error` are total functions into their result types); and a failing
status does not prevent the POSTs to the remaining registered queues — the
request list of `on_error` does not depend on the responses at all, and the
log lines are exactly those of the failing queues, in order. -/
theorem post_message_logging :
    ∀ (α β : Type) (self : Observers) (dumps : α → String) (queue : String)
      (msg : α) (http : PostRequest → HttpResponse β),
      (∀ entry, (self.post_message dumps queue msg http).2 = some entry ↔
        ((http (expectedPost self dumps msg queue)).status ≠ 201
          ∧ entry = errorLogMsg queue
              (http (expectedPost self dumps msg queue)).text))
      ∧ ((self.post_message dumps queue msg http).2 = Option.none ↔
          (http (expectedPost self dumps msg queue)).status = 201)
      ∧ (∀ q t, ∃ a b c, errorLogMsg q t = a ++ q ++ b ++ t ++ c)
      ∧ (∀ http2 : PostRequest → HttpResponse β,
          (self.on_error dumps msg http).1 = (self.on_error dumps msg http2).1)
      ∧ (∀ qs, registryGet self.observers "error" = some qs →
          (self.on_error dumps msg http).2 = qs.filterMap (fun q =>
            if (http (expectedPost self dumps msg q)).status ≠ 201
            then some (errorLogMsg q (http (expectedPost self dumps msg q)).text)
            else Option.none)) := by
  intro α β self dumps queue msg http
  refine ⟨?_, ?_, ?_, ?_, ?_⟩
  · intro entry
    by_cases hs : (http (expectedPost self dumps msg queue)).status = 201 <;>
      simp [Observers.post_message, expectedPost, hs, eq_comm]
  · by_cases hs : (http (expectedPost self dumps msg queue)).status = 201 <;>
      simp [Observers.post_message, expectedPost, hs]
  · intro q t
    refine ⟨"Observer failed to post message to queue ", "; error was \"", "\"", ?_⟩
    simp [errorLogMsg, String.append_assoc]
  · intro http2
    rcases h : registryGet self.observers "error" with _ | qs
    · simp [Observers.on_error, h]
    · rcases qs with _ | ⟨q, rest⟩ <;>
        simp [Observers.on_error, h, Observers.post_message]
  · intro qs h
    rcases qs with _ | ⟨q, rest⟩ <;>
      simp [Observers.on_error, h, Observers.post_message, expectedPost,
        Function.comp_def, List.filterMap_cons, List.filterMap_map]

/-- Witness for C8: with a world that fails `q1` with a 500 and accepts
everything else with 201, the notifier's log lines are exactly the failing
queues' lines. -/
theorem post_message_logging_witness :
    (obsEx.on_error exDumps () exHttpMixed).2
      = (["q1", "q2"]).filterMap (fun q =>
          if (exHttpMixed (expectedPost obsEx exDumps () q)).status ≠ 201
          then some (errorLogMsg q
              (exHttpMixed (expectedPost obsEx exDumps () q)).text)
          else Option.none) :=
  (post_message_logging Unit Unit obsEx exDumps "q1" () exHttpMixed).2.2.2.2
    ["q1", "q2"] rfl

/-- C9: with no queue names registered for the event kind (key absent, or
mapped to the empty list), `on_error` and `on_completion` issue no POSTs and
log nothing: the call is a no-op. -/
theorem notifier_empty_registry_noop :
    ∀ (α β : Type) (self : Observers) (dumps : α → String) (msg : α)
      (http : PostRequest → HttpResponse β),
      ((registryGet self.observers "error" = Option.none
          ∨ registryGet self.observers "error" = some []) →
        self.on_error dumps msg http = ([], []))
      ∧ ((registryGet self.observers "completion" = Option.none
          ∨ registryGet self.observers "completion" = some []) →
        self.on_completion dumps msg http = ([], [])) := by
  intro α β self dumps msg http
  constructor <;> rintro (h | h) <;>
    simp [Observers.on_error, Observers.on_completion, h]

/-- Witness for C9: the notifier with an empty registry is a no-op for both
event kinds. -/
theorem notifier_empty_registry_noop_witness :
    obsEmpty.on_error exDumps () exHttp = ([], [])
    ∧ obsEmpty.on_completion exDumps () exHttp = ([], []) :=
  ⟨(notifier_empty_registry_noop Unit Unit obsEmpty exDumps () exHttp).1 (Or.inl rfl),
   (notifier_empty_registry_noop Unit Unit obsEmpty exDumps () exHttp).2 (Or.inl rfl)⟩

end Cogscale
